import Mathlib

/-!
Verification of the hashdist CLI frontend (`hashdist/cli/frontend_cli.py`)
against its natural-language specification.

The file shallowly embeds the frontend's control flow.  External
collaborators (the profile builder, the build store, the filesystem,
stdout) are modelled as explicit data: the builder is an abstract state
machine supplied as a `Builder` structure, the filesystem is the list of
existing paths, and side effects are recorded in an `Event` trace.
Fatal context errors (`ctx.error`) abort the action, per the spec's
error-handling design ("Fatal, reported before any build starts";
"Reported, no side effects").
-/

namespace Hashdist

/-- Errors surfaced by the frontend actions.  `configError` models
`ctx.error` on a malformed configuration, `targetExists` models
`ctx.error` when a target directory pre-exists, `nameError` models a
Python `NameError` from resolving an unbound name, and `fuelOut` marks
that the dependency loop did not finish within the supplied fuel. -/
inductive Err
  | configError (msg : String)
  | targetExists (target : String)
  | nameError (name : String)
  | fuelOut
  deriving DecidableEq, Repr

/-- Observable side effects of the frontend actions, in order. -/
inductive Event
  | buildPkg (name : String)
  | buildProfile
  | symlink (dir link : String)
  | rmtree (path : String)
  | mkdir (path : String)
  | profileOut (target : String)
  | prepareBuild (target : String)
  | output (s : String)
  | close
  deriving DecidableEq, Repr

/-- The profile builder as seen from the frontend: an abstract state
machine over states `σ`.  `get_ready_list` is `builder.get_ready_list()`,
`build` is `builder.build(name, config, j, k)` (configuration and flags do
not change which state results, so they are elided), and
`build_profile` is `builder.build_profile(config)`, returning the new
state together with `(artifact_id, artifact_dir)`. -/
structure Builder (σ : Type) where
  get_ready_list : σ → List String
  build : σ → String → σ
  build_profile : σ → σ × String × String

/-- The dependency build loop of `ProfileFrontendBase.build_profile_deps`:
`while len(ready) != 0: builder.build(ready[0], ...); ready =
builder.get_ready_list()`.  Fuel bounds the number of rounds; the result
is the final state together with the list of packages built, in order,
or `none` when the fuel ran out. -/
def build_profile_deps {σ : Type} (B : Builder σ) : Nat → σ → Option (σ × List String)
  | 0, _ => none
  | fuel + 1, s =>
    match B.get_ready_list s with
    | [] => some (s, [])
    | p :: _ =>
      match build_profile_deps B fuel (B.build s p) with
      | none => none
      | some (s₂, tr) => some (s₂, p :: tr)

/-- A valid run of the dependency loop: each round builds the first
element of the ready list recomputed from the current state, and the run
ends exactly when the recomputed ready list is empty. -/
inductive LoopRun {σ : Type} (B : Builder σ) : σ → List String → σ → Prop
  | done (s : σ) : B.get_ready_list s = [] → LoopRun B s [] s
  | step (s : σ) (p : String) (rest tr : List String) (s₂ : σ) :
      B.get_ready_list s = p :: rest →
      LoopRun B (B.build s p) tr s₂ →
      LoopRun B s (p :: tr) s₂

/-- The outcome of a frontend action: the result (success or the fatal
error raised) together with the trace of side effects performed before
returning or raising. -/
abbrev Outcome := Except Err Unit × List Event

/-- Model of `ProfileFrontendBase.ensure_target`: if the target exists it is
removed when the force flag is set and otherwise `ctx.error` is raised;
then `os.mkdir(target)` creates it.  Returns the events performed, with
the existing-paths filesystem given as a list of paths. -/
def ensure_target (force : Bool) (fs : List String) (target : String) :
    Except Err (List Event) :=
  if target ∈ fs then
    if force then .ok [.rmtree target, .mkdir target]
    else .error (.targetExists target)
  else .ok [.mkdir target]

/-- Python `s.endswith('.yaml')`, at the character-list level. -/
def ends_with_yaml (s : String) : Bool :=
  List.isSuffixOf ".yaml".data s.data

/-- Python `s[:-len('.yaml')]`: all characters but the last five. -/
def strip_yaml (s : String) : String :=
  String.mk (s.data.take (s.data.length - 5))

/-- Arguments of the `build` subcommand: `-p` profile filename, optional
positional package, `-j`, `-k`. -/
structure BuildArgs where
  profile : String
  package : Option String
  j : Nat
  k : String

/-- Model of `Build.profile_builder_action`: reject a profile filename not ending
in `.yaml`; with a package argument build just that package; otherwise
run the dependency loop, build the profile, and symlink the resulting
artifact directory at the profile path without the `.yaml` suffix. -/
def build_action {σ : Type} (B : Builder σ) (fuel : Nat) (s : σ)
    (args : BuildArgs) : Outcome :=
  if ¬ ends_with_yaml args.profile then
    (.error (.configError "profile filename must end with yaml"), [])
  else
    match args.package with
    | some pkg => (.ok (), [.buildPkg pkg])
    | none =>
      match build_profile_deps B fuel s with
      | none => (.error .fuelOut, [])
      | some (s₂, tr) =>
        (.ok (), tr.map Event.buildPkg ++
          [.buildProfile,
           .symlink (B.build_profile s₂).2.2 (strip_yaml args.profile),
           .output ("Profile build successful, link at: " ++
             strip_yaml args.profile ++ "\n")])

/-- Arguments of the `develop` subcommand: `-p` profile filename,
positional target (default empty string), `-f` force, `-l` link mode. -/
structure DevelopArgs where
  profile : String
  target : String
  force : Bool
  link : String

/-- The target directory `Develop.profile_builder_action` computes:
`os.path.abspath(args.target)` when the target argument is non-empty,
else `os.path.abspath(profile-without-.yaml)`.  `apath` abstracts
`os.path.abspath` (it depends on the process working directory). -/
def develop_target (apath : String → String) (args : DevelopArgs) : String :=
  if args.target = "" then apath (strip_yaml args.profile)
  else apath args.target

/-- Model of `Develop.profile_builder_action`: reject a profile filename not
ending in `.yaml`; ensure the target directory, build the profile
dependencies, then materialize the profile into the target with
`build_profile_out`. -/
def develop_action {σ : Type} (apath : String → String) (B : Builder σ)
    (fuel : Nat) (s : σ) (fs : List String) (args : DevelopArgs) : Outcome :=
  if ¬ ends_with_yaml args.profile then
    (.error (.configError "profile filename must end with yaml"), [])
  else
    match ensure_target args.force fs (develop_target apath args) with
    | .error e => (.error e, [])
    | .ok ev₁ =>
      match build_profile_deps B fuel s with
      | none => (.error .fuelOut, ev₁)
      | some (_, tr) =>
        (.ok (), ev₁ ++ tr.map Event.buildPkg ++
          [.profileOut (develop_target apath args),
           .output ("Development profile build " ++
             develop_target apath args ++ " successful\n")])

/-- The names bound at module level in `frontend_cli.py`: the imports at
the top of the file and the `def`/`class` statements of the module body.
Function-local imports inside `ProfileFrontendBase.__init__` and method
names such as `ensure_target` are not among them. -/
def frontend_module_names : List String :=
  [ "print_function", "os", "sys", "shutil", "pprint", "subprocess",
    "register_subcommand", "BuildStore",
    "add_build_args", "add_profile_args", "add_develop_args", "add_target_args",
    "ProfileFrontendBase", "Build", "Develop", "Status", "Show", "BuildDir",
    "system_lib", "check_lib", "check_libs", "CheckLibs" ]

/-- Model of `BuildDir.profile_builder_action` (the `bdir` subcommand): its first
statement is the bare call `ensure_target(self.args.target)`.  The name
`ensure_target` is resolved against the module scope (it is not a local
variable, and Python does not put methods of the enclosing class in
scope); when resolution fails the statement raises `NameError` before
any side effect.  Only on successful resolution would the action ensure
the target and call `build_store.prepare_build_dir`, modelled here by
the intended events. -/
def bdir_action (force : Bool) (fs : List String) (target : String) :
    Outcome :=
  if "ensure_target" ∈ frontend_module_names then
    match ensure_target force fs target with
    | .error e => (.error e, [])
    | .ok ev₁ => (.ok (), ev₁ ++ [.prepareBuild target])
  else
    (.error (.nameError "ensure_target"), [])

/-- Left-justified minimum-width-50 formatting, as Python's `'%-50s'`. -/
def pad50 (s : String) : String :=
  s ++ String.mk (List.replicate (50 - s.length) ' ')

/-- Model of `Status.profile_builder_action`: takes the status report (a list of
`(short_artifact_id, is_built)` entries, one per package), sorts it, and
prints one line per entry, `'%-50s [%s]\n'` with the short artifact id
and `OK` when built, `needs build` otherwise.  It performs no other
effect. -/
def status_action (report : List (String × Bool)) : Outcome :=
  (.ok (),
    (List.insertionSort (fun a b : String × Bool => a.1 ≤ b.1) report).map
      fun e =>
        Event.output (pad50 e.1 ++ " [" ++
          (if e.2 then "OK" else "needs build") ++ "]\n"))

/-- Python `try body finally fin`: the finalisation events run after the
body whether the body succeeded or raised, and the body's result is
passed through. -/
def try_finally (body : Outcome) (fin : List Event) : Outcome :=
  match body with
  | (.ok x, tr) => (.ok x, tr ++ fin)
  | (.error e, tr) => (.error e, tr ++ fin)

/-- Model of `ProfileFrontendBase.run`: constructs the subcommand, then runs
`profile_builder_action()` inside `try ... finally
self.checkouts.close()`.  The subcommand's action is passed in as its
outcome. -/
def run_method (action : Outcome) : Outcome :=
  try_finally action [Event.close]

/-- A package as the build-spec model sees it: a name, the ordered list
of dependency names, and the recipe text. -/
structure Package where
  name : String
  deps : List String
  recipe : String

/-- A build specification: the canonical document and the artifact id
derived from it. -/
structure BuildSpec where
  doc : String
  artifact_id : Nat

/-- Modelled from the spec: serialization of one parameter entry for the
canonical document (the build-specification model is outside the given
source file). -/
def serialize_param (p : String × String) : String :=
  p.1 ++ "=" ++ p.2 ++ ";"

/-- Modelled from the spec: the explicit canonical-ordering step — the
parameter map's entries are serialized and sorted into a stable order
before hashing, so that the document does not depend on map iteration
order. -/
def canonical_params (params : List (String × String)) : List String :=
  List.insertionSort (fun a b : String => a ≤ b) (params.map serialize_param)

/-- Modelled from the spec: the canonical, deterministic document of a
package's build inputs — recipe text, each dependency's resolved
artifact id (dependency names are an ordered list), and the canonically
ordered parameters. -/
def canonical_doc (pkg : Package) (D : String → Nat)
    (params : List (String × String)) : String :=
  "name:" ++ pkg.name ++ "\nrecipe:" ++ pkg.recipe ++ "\ndeps:" ++
    String.join (pkg.deps.map fun d => d ++ "=" ++ toString (D d) ++ ";") ++
    "\nparams:" ++ String.join (canonical_params params)

/-- Modelled from the spec: a deterministic content hash of the
canonical document (the hash algorithm is an implementation detail; a
64-bit polynomial rolling hash stands in for it). -/
def hash_doc (s : String) : Nat :=
  s.data.foldl (fun h c => (h * 31 + c.toNat) % 2 ^ 64) 5381

/-- Modelled from the spec: `makeBuildSpec(package,
resolvedDependencyArtifactIds, parameters) -> BuildSpec`, a pure
function of the package, the dependency artifact-id assignment `D`, and
the parameter map. -/
def makeBuildSpec (pkg : Package) (D : String → Nat)
    (params : List (String × String)) : BuildSpec :=
  { doc := canonical_doc pkg D params
    artifact_id := hash_doc (canonical_doc pkg D params) }

/-- The fixed list of system library base names in `system_lib`. -/
def system_libs : List String :=
  [ "linux-vdso", "linux-gate",
    "libc", "libm", "libutil", "libcrypt", "libpthread", "libdl",
    "librt", "libnsl",
    "libstdc++", "libgfortran", "libquadmath", "libgcc_s",
    "libX11", "libXau", "libXext", "libxcb", "libXdmcp" ]

/-- Model of `system_lib(name)`: returns `True` for the empty name, otherwise
scans `system_libs` and returns `True` on the first base name `lib` with
`name.startswith(lib + ".so")`, else `False`. -/
def system_lib (name : String) : Bool :=
  if name = "" then true
  else system_libs.any fun lib => name.startsWith (lib ++ ".so")

/-- A small concrete builder used to exercise the theorems: its state is
the list of packages still to build, the ready list is that list, and
building removes the first entry. -/
def demoBuilder : Builder (List String) where
  get_ready_list s := s
  build s _ := s.drop 1
  build_profile s := (s, "prof-id", "/store/prof-id")

/-- Appending the suffix `.yaml` makes `ends_with_yaml` hold. -/
theorem ends_with_yaml_append (name : String) :
    ends_with_yaml (name ++ ".yaml") = true := by
  rw [ends_with_yaml, String.data_append]
  exact List.isSuffixOf_iff_suffix.mpr (List.suffix_append _ _)

/-- Stripping the suffix `.yaml` from `name ++ ".yaml"` gives `name`. -/
theorem strip_yaml_append (name : String) :
    strip_yaml (name ++ ".yaml") = name := by
  rw [strip_yaml, String.data_append]
  have h5 : (".yaml".data).length = 5 := rfl
  rw [List.length_append, h5, Nat.add_sub_cancel, List.take_left]

/-- One unfolding step of the loop when the ready list is empty. -/
theorem build_profile_deps_succ_nil {σ : Type} (B : Builder σ) (n : Nat)
    (s : σ) (hr : B.get_ready_list s = []) :
    build_profile_deps B (n + 1) s = some (s, []) := by
  rw [build_profile_deps, hr]

/-- One unfolding step of the loop when the ready list is non-empty. -/
theorem build_profile_deps_succ_cons {σ : Type} (B : Builder σ) (n : Nat)
    (s : σ) (p : String) (rest : List String)
    (hr : B.get_ready_list s = p :: rest) :
    build_profile_deps B (n + 1) s =
      match build_profile_deps B n (B.build s p) with
      | none => none
      | some (s₂, tr) => some (s₂, p :: tr) := by
  rw [build_profile_deps, hr]

end Hashdist

namespace Hashdist

/-- Claim C1: every terminating execution of the dependency build loop
`build_profile_deps` is a valid run: in each round it builds the first
element of the ready list recomputed from the current state, and it
stops exactly when the recomputed ready list is empty. -/
theorem loop_builds_head_until_empty {σ : Type} (B : Builder σ) (fuel : Nat)
    (s s₂ : σ) (tr : List String)
    (h : build_profile_deps B fuel s = some (s₂, tr)) :
    LoopRun B s tr s₂ ∧ B.get_ready_list s₂ = [] := by
  induction fuel generalizing s tr with
  | zero => simp [build_profile_deps] at h
  | succ n ih =>
    cases hr : B.get_ready_list s with
    | nil =>
      rw [build_profile_deps_succ_nil B n s hr] at h
      simp only [Option.some.injEq, Prod.mk.injEq] at h
      obtain ⟨rfl, rfl⟩ := h
      exact ⟨.done s hr, hr⟩
    | cons p rest =>
      rw [build_profile_deps_succ_cons B n s p rest hr] at h
      cases hrec : build_profile_deps B n (B.build s p) with
      | none => rw [hrec] at h; simp at h
      | some r =>
        obtain ⟨s₃, tr₃⟩ := r
        rw [hrec] at h
        simp only [Option.some.injEq, Prod.mk.injEq] at h
        obtain ⟨rfl, rfl⟩ := h
        obtain ⟨hrun, hready⟩ := ih _ _ hrec
        exact ⟨.step s p rest tr₃ _ hr hrun, hready⟩

/-- Witness for C1: a concrete two-package run of the loop. -/
theorem loop_builds_head_until_empty_witness :
    LoopRun demoBuilder ["a", "b"] ["a", "b"] [] ∧
      demoBuilder.get_ready_list [] = [] :=
  loop_builds_head_until_empty demoBuilder 3 ["a", "b"] [] ["a", "b"] rfl

/-- Claim C2: when every build strictly decreases the number of unbuilt
packages (measure `m`), the dependency loop over a profile with at most
`n` unbuilt packages terminates within fuel `n + 1`, building at most
`n` packages (at most `n` rounds). -/
theorem loop_terminates {σ : Type} (B : Builder σ) (m : σ → Nat)
    (hm : ∀ t p rest, B.get_ready_list t = p :: rest → m (B.build t p) < m t)
    (n : Nat) (s : σ) (hn : m s ≤ n) :
    ∃ s₂ tr, build_profile_deps B (n + 1) s = some (s₂, tr) ∧ tr.length ≤ n := by
  induction n generalizing s with
  | zero =>
    cases hr : B.get_ready_list s with
    | nil => exact ⟨s, [], build_profile_deps_succ_nil B 0 s hr, Nat.le_refl 0⟩
    | cons p rest =>
      have := hm s p rest hr
      omega
  | succ n ih =>
    cases hr : B.get_ready_list s with
    | nil => exact ⟨s, [], build_profile_deps_succ_nil B (n + 1) s hr, Nat.zero_le _⟩
    | cons p rest =>
      have hlt := hm s p rest hr
      obtain ⟨s₂, tr, heq, hlen⟩ := ih (B.build s p) (by omega)
      refine ⟨s₂, p :: tr, ?_, by simpa using hlen⟩
      rw [build_profile_deps_succ_cons B (n + 1) s p rest hr, heq]

/-- Witness for C2: the loop on the concrete two-package profile
terminates within fuel 3, building at most 2 packages. -/
theorem loop_terminates_witness :
    ∃ s₂ tr, build_profile_deps demoBuilder (2 + 1) ["a", "b"] = some (s₂, tr) ∧
      tr.length ≤ 2 :=
  loop_terminates demoBuilder List.length
    (fun t p rest h => by
      have h₂ : t = p :: rest := h
      subst h₂
      simp [demoBuilder])
    2 ["a", "b"] (by simp)

/-- Claim C9: `system_lib` returns true exactly for the empty name and
for names starting with one of the system-library base names followed by
`.so`; every other name yields false. -/
theorem system_lib_characterization (name : String) :
    system_lib name = true ↔
      name = "" ∨ ∃ lib ∈ system_libs, name.startsWith (lib ++ ".so") := by
  rw [system_lib]
  split
  · simp [*]
  · simp only [List.any_eq_true]
    constructor
    · rintro ⟨lib, hmem, hsw⟩
      exact Or.inr ⟨lib, hmem, hsw⟩
    · rintro (rfl | ⟨lib, hmem, hsw⟩)
      · simp_all
      · exact ⟨lib, hmem, hsw⟩

/-- Claim C4: on a profile filename that does not end in `.yaml`, both
the `build` and the `develop` actions stop with the fatal configuration
error, with an empty effect trace — in particular no package build is
attempted. -/
theorem yaml_suffix_checked_first {σ : Type} (B : Builder σ) (fuel : Nat)
    (s : σ) (apath : String → String) (fs : List String)
    (bargs : BuildArgs) (dargs : DevelopArgs)
    (hb : ¬ ends_with_yaml bargs.profile = true)
    (hd : ¬ ends_with_yaml dargs.profile = true) :
    build_action B fuel s bargs =
      (.error (.configError "profile filename must end with yaml"), []) ∧
    develop_action apath B fuel s fs dargs =
      (.error (.configError "profile filename must end with yaml"), []) := by
  constructor
  · rw [build_action, if_pos (by simpa using hb)]
  · rw [develop_action, if_pos (by simpa using hd)]

/-- Witness for C4: concrete `build`/`develop` invocations with profile
filename `default.yml`. -/
theorem yaml_suffix_checked_first_witness :
    build_action demoBuilder 3 ["a"] ⟨"default.yml", none, 1, "never"⟩ =
      (.error (.configError "profile filename must end with yaml"), []) ∧
    develop_action id demoBuilder 3 ["a"] []
        ⟨"default.yml", "", false, "absolute"⟩ =
      (.error (.configError "profile filename must end with yaml"), []) :=
  yaml_suffix_checked_first demoBuilder 3 ["a"] id []
    ⟨"default.yml", none, 1, "never"⟩ ⟨"default.yml", "", false, "absolute"⟩
    (by decide) (by decide)

/-- Claim C3 (code bug): every invocation of the `bdir` subcommand raises
`NameError` on its first statement, because `profile_builder_action`
calls the bare name `ensure_target`, which is not bound at module level;
no directory is prepared and no target-exists check is reached. -/
theorem bdir_always_nameError (force : Bool) (fs : List String)
    (target : String) :
    bdir_action force fs target = (.error (.nameError "ensure_target"), []) := by
  rw [bdir_action, if_neg (by decide)]

/-- Claim C5: when the develop target already exists — without the force
flag the action stops with the target-exists error and an empty effect
trace; with the force flag every successful run first removes and
recreates the target and only later materializes the profile into it. -/
theorem develop_existing_target {σ : Type} (apath : String → String)
    (B : Builder σ) (fuel : Nat) (s : σ) (fs : List String)
    (args : DevelopArgs)
    (hy : ends_with_yaml args.profile = true)
    (hex : develop_target apath args ∈ fs) :
    (args.force = false →
      develop_action apath B fuel s fs args =
        (.error (.targetExists (develop_target apath args)), [])) ∧
    (args.force = true →
      ∀ tr, develop_action apath B fuel s fs args = (.ok (), tr) →
        ∃ rest, tr = Event.rmtree (develop_target apath args) ::
            Event.mkdir (develop_target apath args) :: rest ∧
          Event.profileOut (develop_target apath args) ∈ rest) := by
  constructor
  · intro hforce
    rw [develop_action, if_neg (by simp [hy]), ensure_target,
      if_pos hex, hforce]
    rfl
  · intro hforce tr h
    rw [develop_action, if_neg (by simp [hy]), ensure_target,
      if_pos hex, hforce] at h
    simp only [if_pos] at h
    cases hdeps : build_profile_deps B fuel s with
    | none => rw [hdeps] at h; simp at h
    | some r =>
      obtain ⟨s₂, btr⟩ := r
      rw [hdeps] at h
      simp only [Prod.mk.injEq, Except.ok.injEq, List.cons_append,
        List.nil_append] at h
      obtain ⟨-, rfl⟩ := h
      refine ⟨_, rfl, ?_⟩
      simp

/-- Witness for C5 without force: a concrete develop invocation on an
existing target reports the target-exists error with no effects. -/
theorem develop_existing_target_witness :
    develop_action id demoBuilder 3 ["a"] ["default"]
        ⟨"default.yaml", "", false, "absolute"⟩ =
      (.error (.targetExists
        (develop_target id ⟨"default.yaml", "", false, "absolute"⟩)), []) :=
  (develop_existing_target id demoBuilder 3 ["a"] ["default"]
    ⟨"default.yaml", "", false, "absolute"⟩ (by decide) (by decide)).1 rfl

/-- Claim C6: every successful run of the `build` subcommand with no
package argument on a profile file `name ++ ".yaml"` builds the ready
packages, builds the profile, and finally creates the symlink to the
composed profile artifact directory at `name` (the profile path with the
`.yaml` suffix removed). -/
theorem build_full_creates_symlink {σ : Type} (B : Builder σ) (fuel : Nat)
    (s : σ) (args : BuildArgs) (name : String) (tr : List Event)
    (hy : args.profile = name ++ ".yaml")
    (hp : args.package = none)
    (h : build_action B fuel s args = (.ok (), tr)) :
    ∃ (builtPkgs : List String) (dir : String),
      tr = builtPkgs.map Event.buildPkg ++
        [Event.buildProfile, Event.symlink dir name,
         Event.output ("Profile build successful, link at: " ++ name ++ "\n")] := by
  rw [build_action, if_neg (by simp [hy, ends_with_yaml_append]), hp] at h
  cases hdeps : build_profile_deps B fuel s with
  | none => rw [hdeps] at h; simp at h
  | some r =>
    obtain ⟨s₂, btr⟩ := r
    rw [hdeps] at h
    simp only [Prod.mk.injEq, Except.ok.injEq] at h
    obtain ⟨-, rfl⟩ := h
    refine ⟨btr, (B.build_profile s₂).2.2, ?_⟩
    rw [hy, strip_yaml_append]

/-- Witness for C6: a concrete full build of `default.yaml` produces the
symlink at `default`. -/
theorem build_full_creates_symlink_witness :
    ∃ (builtPkgs : List String) (dir : String),
      [Event.buildPkg "a", Event.buildProfile,
       Event.symlink "/store/prof-id" "default",
       Event.output ("Profile build successful, link at: default\n")] =
        builtPkgs.map Event.buildPkg ++
          [Event.buildProfile, Event.symlink dir "default",
           Event.output ("Profile build successful, link at: " ++ "default" ++ "\n")] :=
  build_full_creates_symlink demoBuilder 2 ["a"]
    ⟨"default.yaml", none, 1, "never"⟩ "default" _ rfl rfl rfl

/-- Claim C7: the status action succeeds, its effect trace consists of
stdout lines only (no building, no store mutation), and for every entry
of the report it prints the short artifact id padded to 50 columns
followed by `[OK]` when built and `[needs build]` otherwise. -/
theorem status_reports_without_building (report : List (String × Bool))
    (sid : String) (b : Bool) (hmem : (sid, b) ∈ report) :
    (status_action report).1 = .ok () ∧
    (∀ e ∈ (status_action report).2, ∃ line, e = Event.output line) ∧
    Event.output (pad50 sid ++ " [" ++ (if b then "OK" else "needs build")
      ++ "]\n") ∈ (status_action report).2 := by
  refine ⟨rfl, ?_, ?_⟩
  · intro e he
    simp only [status_action, List.mem_map] at he
    obtain ⟨entry, -, rfl⟩ := he
    exact ⟨_, rfl⟩
  · simp only [status_action, List.mem_map]
    exact ⟨(sid, b), List.mem_insertionSort _ |>.mpr hmem, rfl⟩

/-- Witness for C7: a concrete two-package status report prints the
`needs build` line for the unbuilt package. -/
theorem status_reports_without_building_witness :
    Event.output (pad50 "zlib/abc" ++ " [" ++
        (if false then "OK" else "needs build") ++ "]\n") ∈
      (status_action [("python/xyz", true), ("zlib/abc", false)]).2 :=
  (status_reports_without_building
    [("python/xyz", true), ("zlib/abc", false)] "zlib/abc" false
    (by simp)).2.2

/-- Claim C8: `makeBuildSpec` is deterministic — for a fixed package and
dependency artifact-id assignment, any two presentations of the same
parameter map (lists equal up to reordering) yield the same artifact id.
With the parameter order fixed, re-calling it on identical inputs yields
an identical artifact id since it is a pure function. -/
theorem makeBuildSpec_deterministic (pkg : Package) (D : String → Nat)
    (params₁ params₂ : List (String × String))
    (hperm : params₁.Perm params₂) :
    (makeBuildSpec pkg D params₁).artifact_id =
      (makeBuildSpec pkg D params₂).artifact_id := by
  have hcanon : canonical_params params₁ = canonical_params params₂ := by
    refine List.eq_of_perm_of_sorted ?_
      (List.sorted_insertionSort _ _) (List.sorted_insertionSort _ _)
    exact ((List.perm_insertionSort _ _).trans (hperm.map _)).trans
      (List.perm_insertionSort _ _).symm
  rw [makeBuildSpec, makeBuildSpec, canonical_doc, canonical_doc, hcanon]

/-- Witness for C8: the same two-entry parameter map presented in two
orders yields the same artifact id. -/
theorem makeBuildSpec_deterministic_witness :
    (makeBuildSpec ⟨"zlib", ["libc"], "./configure"⟩ (fun _ => 7)
        [("prefix", "/usr"), ("shared", "yes")]).artifact_id =
      (makeBuildSpec ⟨"zlib", ["libc"], "./configure"⟩ (fun _ => 7)
        [("shared", "yes"), ("prefix", "/usr")]).artifact_id :=
  makeBuildSpec_deterministic ⟨"zlib", ["libc"], "./configure"⟩ (fun _ => 7)
    [("prefix", "/usr"), ("shared", "yes")]
    [("shared", "yes"), ("prefix", "/usr")]
    (List.Perm.swap _ _ _)

/-- Claim C10: `ProfileFrontendBase.run` closes the temporary source
checkouts after the subcommand action, as the last effect, both when the
action succeeds and when it raises, and it passes the action's result
through. -/
theorem run_closes_checkouts (e : Err) (tr₁ tr₂ : List Event) :
    ((run_method (.ok (), tr₁)).1 = .ok () ∧
      (run_method (.ok (), tr₁)).2.getLast? = some Event.close) ∧
    ((run_method (.error e, tr₂)).1 = .error e ∧
      (run_method (.error e, tr₂)).2.getLast? = some Event.close) := by
  refine ⟨⟨rfl, ?_⟩, ⟨rfl, ?_⟩⟩ <;>
    simp [run_method, try_finally, List.getLast?_concat]

end Hashdist
